import Mathlib

/-!
# russh — verification of the dispatcher and executors

Shallow embedding of the concurrent multi-host SSH command dispatcher
(`src/main.rs`, `src/ssh.rs`, `src/ssh/mod.rs`) and proofs of the spec
claims about it.

Modelling conventions:
* A subprocess invocation is abstracted by an environment value describing
  what the operating system did: `Except`-wrapped spawn outcome carrying the
  exit status and the lossily decoded stdout/stderr text.  Wall-clock
  durations (`f64` seconds in Rust) are abstracted to `Nat` time-stamps
  supplied by the environment; the code only ever copies the measured value
  into the result, which is what the claims about durations state.
* `String` ordering: Rust compares `String`s by UTF-8 bytes, Lean by
  code-points; the two orders agree on valid UTF-8, so Lean's linear order
  on `String` models `str::cmp` faithfully.
* Concurrency: every worker thread appends exactly one result to the shared
  `Arc<Mutex<Vec<_>>>` and all threads are joined before the vector is read,
  so the collected vector is some permutation (arrival order) of the
  per-task results; theorems quantify over that permutation.  The two
  stream-reader threads of the streaming variant interleave their sends into
  one mpsc channel; theorems quantify over the interleaving schedule.
-/

set_option linter.unusedVariables false

namespace Russh

namespace Main

/-- What a completed subprocess handed back to `Command::output()`:
`output.status.success()` and the lossily decoded stdout/stderr bytes. -/
structure ProcessOutput where
  exitSuccess : Bool
  stdout : String
  stderr : String
  deriving Repr, DecidableEq

/-- Environment of one `run_ssh_command` call: the result of
`Command::new("ssh").args(..).output()` (`Err e` is a spawn/IO failure with
message `e.to_string()`), and the value `start.elapsed()` had when the call
resolved. -/
structure SpawnEnv where
  spawn : Except String ProcessOutput
  elapsed : Nat
  deriving Repr

/-- `struct ServerResult` of `src/main.rs` (duplicated in `src/ssh.rs`):
`{ server, output, error: Option<String>, duration: f64 }`.  Note: this
batch-variant struct has no `success` field. -/
structure ServerResult where
  server : String
  output : String
  error : Option String
  duration : Nat
  deriving Repr, DecidableEq

/-- `fn run_ssh_command` of `src/main.rs` (identical in `src/ssh.rs`): on
`Ok(output)` the error field is
`output.status.success().then(|| None).unwrap_or(Some(stderr))`, i.e.
`None` exactly when the exit status was success and `Some(stderr)`
otherwise; on `Err(e)` the output is empty and the error is `e.to_string()`.
Both branches copy the `server` argument and the measured duration. -/
def run_ssh_command (env : SpawnEnv) (server user command ssh_options : String) :
    ServerResult :=
  match env.spawn with
  | .ok out =>
      { server := server
        output := out.stdout
        error := if out.exitSuccess then none else some out.stderr
        duration := env.elapsed }
  | .error e =>
      { server := server
        output := ""
        error := some e
        duration := env.elapsed }

/-- The spec's `ExecutionResult.success` ("true iff the subprocess launched
and exited with status 0") specialised to the batch `ServerResult`, which
carries no such field: in `run_ssh_command` the error field is `None`
exactly in that case, so `success` is represented by `error.isNone`. -/
def ServerResult.successFlag (r : ServerResult) : Bool :=
  r.error.isNone

/-- A task as expanded by `main`: one `(server, command)` pair together with
the user and ssh-option string resolved for that server. -/
structure Task where
  server : String
  user : String
  ssh_options : String
  command : String
  deriving Repr, DecidableEq

/-- `struct Config` of `src/main.rs`: the server list plus the two
per-server lookup maps.  `HashMap<String, String>` is modelled as an
association list (no duplicate keys in a `HashMap`; `lookup` returns the
first match, which coincides with map lookup). -/
structure Config where
  servers : List String
  ssh_options : List (String × String)
  users : List (String × String)
  deriving Repr

/-- `map.get(server).unwrap_or(&default)` with `default = String::new()`
(main.rs lines 186-194): a missing entry resolves to the empty string. -/
def lookupDefault (m : List (String × String)) (k : String) : String :=
  (m.lookup k).getD ""

/-- The task expansion of `main`'s nested loops (servers outer, commands
inner): for each server resolve `ssh_options` and `user` with empty-string
defaults, then pair with every command. -/
def buildTasks (cfg : Config) (commands : List String) : List Task :=
  cfg.servers.flatMap fun server =>
    commands.map fun command =>
      { server := server
        user := lookupDefault cfg.users server
        ssh_options := lookupDefault cfg.ssh_options server
        command := command }

/-- The per-task results: one worker thread per task, each invoking
`run_ssh_command` once and appending its single result.  `env i` is the
operating-system behaviour seen by the worker of the `i`-th task. -/
def dispatchResults (env : Nat → SpawnEnv) (tasks : List Task) : List ServerResult :=
  tasks.mapIdx fun i t => run_ssh_command (env i) t.server t.user t.command t.ssh_options

/-- `results.sort_by(|a, b| a.server.cmp(&b.server))` (main.rs line 222):
Rust's `sort_by` is a stable sort, modelled by `List.mergeSort` (stable) on
the same key comparison. -/
def finalReport (collected : List ServerResult) : List ServerResult :=
  collected.mergeSort fun a b => decide (a.server ≤ b.server)

end Main

/-- A deterministic merge of two send sequences directed by a schedule:
`true` picks the next element of the first list, `false` of the second;
an exhausted schedule or list lets the rest flow through.  Quantifying over
schedules models every interleaving two concurrently sending threads can
produce on one mpsc channel. -/
def mergeBy : List Bool → List α → List α → List α
  | [], xs, ys => xs ++ ys
  | _ :: _, [], ys => ys
  | _ :: _, x :: xs, [] => x :: xs
  | true :: s, x :: xs, y :: ys => x :: mergeBy s xs (y :: ys)
  | false :: s, x :: xs, y :: ys => y :: mergeBy s (x :: xs) ys

namespace Ssh

/-- `struct ServerResult` of `src/ssh/mod.rs` — the streaming variant,
which does carry a `success` field. -/
structure ServerResult where
  server : String
  output : String
  error : Option String
  duration : Nat
  success : Bool
  deriving Repr, DecidableEq

/-- One line delivered by a reader thread, together with the value
`start.elapsed()` had when the corresponding `ServerResult` was sent. -/
structure StreamLine where
  line : String
  elapsed : Nat
  deriving Repr, DecidableEq

/-- What one output pipe yielded: the lines read successfully, in order,
and — if the next read failed — the IO error on which the reader thread's
`line.expect(..)` panicked. -/
structure StreamRead where
  lines : List StreamLine
  readFailure : Option String
  deriving Repr, DecidableEq

/-- Behaviour of the spawned subprocess seen by the streaming executor. -/
structure StreamProc where
  stdoutRead : StreamRead
  stderrRead : StreamRead
  exitSuccess : Bool
  finalElapsed : Nat
  deriving Repr, DecidableEq

/-- Environment of one streaming `run_ssh_command` call: `.spawn()`
either yields a child process or fails with an IO error. -/
structure StreamEnv where
  spawn : Except String StreamProc

/-- The provisional per-line result both reader threads send
(ssh/mod.rs lines 50-58 and 66-74): `output` is the line, `error` is
`None`, `success` is `true`. -/
def provisional (server : String) (l : StreamLine) : ServerResult :=
  { server := server
    output := l.line
    error := none
    duration := l.elapsed
    success := true }

/-- The final authoritative result (ssh/mod.rs lines 88-95): empty output,
`error = None`, `success` from `child.wait()`. -/
def finalResult (server : String) (proc : StreamProc) : ServerResult :=
  { server := server
    output := ""
    error := none
    duration := proc.finalElapsed
    success := proc.exitSuccess }

/-- `fn run_ssh_command` of `src/ssh/mod.rs`.  Returns the sequence of
results sent on the channel, paired with `some msg` when the call panicked:
* `.spawn().expect("Failed to start ssh command")` panics on spawn failure
  before anything is sent;
* each reader thread sends one provisional result per successfully read
  line and panics on a read failure; a panicked reader makes the main
  thread's `join().expect(..)` panic, after both threads' successful sends
  (the stderr thread runs to completion regardless of the stdout thread);
* only when both joins succeed does the code `wait()` for the exit status
  and send the final result, so the final result is sent after every
  provisional one.  `sched` fixes how the two threads' sends interleave. -/
def run_ssh_command (env : StreamEnv) (server user command ssh_options : String)
    (sched : List Bool) : List ServerResult × Option String :=
  match env.spawn with
  | .error _ => ([], some "Failed to start ssh command")
  | .ok proc =>
      let provs := mergeBy sched
        (proc.stdoutRead.lines.map (provisional server))
        (proc.stderrRead.lines.map (provisional server))
      match proc.stdoutRead.readFailure with
      | some _ => (provs, some "Failed to join stdout thread")
      | none =>
          match proc.stderrRead.readFailure with
          | some _ => (provs, some "Failed to join stderr thread")
          | none => (provs ++ [finalResult server proc], none)

end Ssh

namespace Report

/-- The spec's `ExecutionResult` data model (§3), used for the Aggregator
interface. -/
structure ExecutionResult where
  server : String
  output : String
  error : Option String
  success : Bool
  duration : Nat
  deriving Repr, DecidableEq

/-- Modelled from the spec: the `ReportSet` (§3) — the sorted result
sequence plus the derived aggregates `allSucceeded`/`anySucceeded`.  No
aggregate computation exists under `src/` (main.rs finalizes by sorting
only, and its result struct has no `success` field). -/
structure ReportSet where
  results : List ExecutionResult
  allSucceeded : Bool
  anySucceeded : Bool
  deriving Repr, DecidableEq

/-- Modelled from the spec: the Aggregator's `finalize` (§4.4).  The stable
sort by `server` is the code's (main.rs line 222); the derived aggregates,
missing from `src/`, follow the spec's words "computed by folding over
`success`". -/
def finalize (rs : List ExecutionResult) : ReportSet :=
  let sorted := rs.mergeSort fun a b => decide (a.server ≤ b.server)
  { results := sorted
    allSucceeded := sorted.all fun r => r.success
    anySucceeded := sorted.any fun r => r.success }

end Report

end Russh

namespace Russh

namespace Main

/-- C9: For every input `(server, user, command, ssh_options)` and every
subprocess behaviour (successful spawn or spawn failure), the batch
executor's returned result has its `server` field equal to the `server`
argument, so results can always be correlated to their originating host. -/
theorem result_server_eq_input (env : SpawnEnv) (server user command ssh_options : String) :
    (run_ssh_command env server user command ssh_options).server = server := by
  unfold run_ssh_command
  cases env.spawn <;> rfl

/-- C5: On spawn failure (`Command::output()` returned `Err e`) the batch
executor's result has derived success `false`, empty output, the spawn
failure message in `error`, and the duration measured at failure
detection (never left unset). -/
theorem batch_spawn_failure_result (env : SpawnEnv)
    (server user command ssh_options e : String)
    (h : env.spawn = .error e) :
    (run_ssh_command env server user command ssh_options).successFlag = false ∧
    (run_ssh_command env server user command ssh_options).output = "" ∧
    (run_ssh_command env server user command ssh_options).error = some e ∧
    (run_ssh_command env server user command ssh_options).duration = env.elapsed := by
  unfold run_ssh_command
  rw [h]
  exact ⟨rfl, rfl, rfl, rfl⟩

/-- C4 counterexample: a subprocess that spawns successfully, exits with a
nonzero status and writes nothing to stderr yields `error = some ""` — the
captured (empty) stderr, not the synthesized non-empty message the claim
requires for that case. -/
theorem empty_stderr_no_synthesized_message :
    (run_ssh_command ⟨.ok ⟨false, "", ""⟩, 5⟩ "host1" "root" "false" "").error = some "" ∧
    ¬ ∃ m, (run_ssh_command ⟨.ok ⟨false, "", ""⟩, 5⟩ "host1" "root" "false" "").error = some m ∧
      m ≠ "" := by
  refine ⟨rfl, ?_⟩
  rintro ⟨m, hm, hne⟩
  exact hne (Option.some.inj hm).symm

/-- C4 (amended): for a successfully spawned subprocess the batch result
satisfies: derived success equals the exit status; on failure `error` is
`some` of the captured stderr contents — even when stderr was empty, in
which case it is `some ""` (no message is synthesized); on success `error`
is `none`. -/
theorem batch_exit_status_semantics (env : SpawnEnv)
    (server user command ssh_options : String) (out : ProcessOutput)
    (h : env.spawn = .ok out) :
    (run_ssh_command env server user command ssh_options).successFlag = out.exitSuccess ∧
    (out.exitSuccess = false →
      (run_ssh_command env server user command ssh_options).error = some out.stderr) ∧
    (out.exitSuccess = true →
      (run_ssh_command env server user command ssh_options).error = none) := by
  have h1 : run_ssh_command env server user command ssh_options =
      { server := server
        output := out.stdout
        error := if out.exitSuccess then none else some out.stderr
        duration := env.elapsed } := by
    unfold run_ssh_command
    rw [h]
  rw [h1]
  cases hx : out.exitSuccess <;>
    simp [ServerResult.successFlag]

/-- Witness for C4 (amended) at a concrete nonzero-exit environment. -/
theorem batch_exit_status_semantics_witness :
    (run_ssh_command ⟨.ok ⟨false, "", "boom"⟩, 2⟩ "host1" "root" "false" "").successFlag
      = false ∧
    (run_ssh_command ⟨.ok ⟨false, "", "boom"⟩, 2⟩ "host1" "root" "false" "").error
      = some "boom" :=
  ⟨(batch_exit_status_semantics ⟨.ok ⟨false, "", "boom"⟩, 2⟩ "host1" "root" "false" ""
      ⟨false, "", "boom"⟩ rfl).1,
   (batch_exit_status_semantics ⟨.ok ⟨false, "", "boom"⟩, 2⟩ "host1" "root" "false" ""
      ⟨false, "", "boom"⟩ rfl).2.1 rfl⟩

/-- C3 (amended): the batch executor (`run_ssh_command` of main.rs/ssh.rs)
never panics — it is a total function into `ServerResult` — and every
failure mode is captured in the result: a spawn failure puts the failure
message into `error` (derived success `false`), and after a successful
spawn `error = none` exactly when the exit status was success.  (The
streaming variant, by contrast, panics on spawn and read failures: see the
counterexample about `Ssh.run_ssh_command`.) -/
theorem batch_never_panics_captures_failures (env : SpawnEnv)
    (server user command ssh_options : String) :
    (∀ e, env.spawn = .error e →
      (run_ssh_command env server user command ssh_options).error = some e ∧
      (run_ssh_command env server user command ssh_options).successFlag = false) ∧
    (∀ out, env.spawn = .ok out →
      ((run_ssh_command env server user command ssh_options).error = none ↔
        out.exitSuccess = true)) := by
  constructor
  · intro e he
    unfold run_ssh_command
    rw [he]
    exact ⟨rfl, rfl⟩
  · intro out hout
    unfold run_ssh_command
    rw [hout]
    cases hx : out.exitSuccess <;> simp [hx]

/-- Witness for C3 (amended) at a concrete spawn-failure environment. -/
theorem batch_never_panics_witness :
    (run_ssh_command ⟨.error "spawn failed", 2⟩ "host1" "root" "uptime" "").error
      = some "spawn failed" ∧
    (run_ssh_command ⟨.error "spawn failed", 2⟩ "host1" "root" "uptime" "").successFlag
      = false :=
  (batch_never_panics_captures_failures ⟨.error "spawn failed", 2⟩
    "host1" "root" "uptime" "").1 "spawn failed" rfl

/-- Witness for C5 at a concrete spawn-failure environment. -/
theorem batch_spawn_failure_result_witness :
    (run_ssh_command ⟨.error "No such file or directory (os error 2)", 3⟩
        "host1" "root" "uptime" "-p 22").successFlag = false ∧
    (run_ssh_command ⟨.error "No such file or directory (os error 2)", 3⟩
        "host1" "root" "uptime" "-p 22").output = "" ∧
    (run_ssh_command ⟨.error "No such file or directory (os error 2)", 3⟩
        "host1" "root" "uptime" "-p 22").error =
      some "No such file or directory (os error 2)" ∧
    (run_ssh_command ⟨.error "No such file or directory (os error 2)", 3⟩
        "host1" "root" "uptime" "-p 22").duration = 3 :=
  batch_spawn_failure_result ⟨.error "No such file or directory (os error 2)", 3⟩
    "host1" "root" "uptime" "-p 22" "No such file or directory (os error 2)" rfl

end Main

end Russh

namespace Russh

/-- A schedule-directed merge contains exactly the elements of its two
inputs: it is a permutation of their concatenation. -/
theorem mergeBy_perm {α : Type} (sched : List Bool) (l1 l2 : List α) :
    List.Perm (mergeBy sched l1 l2) (l1 ++ l2) := by
  induction sched generalizing l1 l2 with
  | nil => simp [mergeBy]
  | cons b s ih =>
      cases l1 with
      | nil => simp [mergeBy]
      | cons x xs =>
          cases l2 with
          | nil => simp [mergeBy]
          | cons y ys =>
              cases b with
              | true => exact (ih xs (y :: ys)).cons x
              | false => exact ((ih (x :: xs) ys).cons y).trans List.perm_middle.symm

namespace Ssh

/-- For a successfully spawned subprocess, the emitted sequence is the
schedule-directed interleaving of the two threads' provisional results,
followed by the final result exactly when neither reader thread failed. -/
theorem run_fst_eq (env : StreamEnv) (server user command ssh_options : String)
    (sched : List Bool) (proc : StreamProc) (hspawn : env.spawn = .ok proc) :
    (run_ssh_command env server user command ssh_options sched).1 =
      mergeBy sched (proc.stdoutRead.lines.map (provisional server))
        (proc.stderrRead.lines.map (provisional server)) ++
      (if proc.stdoutRead.readFailure = none ∧ proc.stderrRead.readFailure = none
        then [finalResult server proc] else []) := by
  rcases hof : proc.stdoutRead.readFailure with _ | m1 <;>
    rcases hef : proc.stderrRead.readFailure with _ | m2 <;>
      simp [run_ssh_command, hspawn, hof, hef]

/-- C3 counterexample: on a spawn failure the streaming executor panics
(`.spawn().expect("Failed to start ssh command")`, ssh/mod.rs line 41)
instead of capturing the failure: the call ends in a panic and no result
carrying the failure is returned at all. -/
theorem stream_spawn_failure_panics :
    (run_ssh_command ⟨.error "No such file or directory (os error 2)"⟩
        "host1" "root" "uptime" "-p 22" []).2 = some "Failed to start ssh command" ∧
    ¬ (run_ssh_command ⟨.error "No such file or directory (os error 2)"⟩
        "host1" "root" "uptime" "-p 22" []).2 = none ∧
    (run_ssh_command ⟨.error "No such file or directory (os error 2)"⟩
        "host1" "root" "uptime" "-p 22" []).1 = [] := by
  refine ⟨rfl, ?_, rfl⟩
  intro h
  exact Option.some_ne_none "Failed to start ssh command" h

/-- C8: when the subprocess spawns and both pipes are read without failure,
the streaming executor's panic channel is empty, the LAST emitted result is
the single final authoritative one, and every result before it is a
per-line provisional result (`error = none`, `success = true`, `output` a
line of one of the two streams) — so the terminal result for the task is
always the last result emitted, whatever the thread interleaving. -/
theorem final_result_emitted_last (env : StreamEnv)
    (server user command ssh_options : String) (sched : List Bool)
    (proc : StreamProc) (hspawn : env.spawn = .ok proc)
    (hout : proc.stdoutRead.readFailure = none)
    (herr : proc.stderrRead.readFailure = none) :
    (run_ssh_command env server user command ssh_options sched).2 = none ∧
    (run_ssh_command env server user command ssh_options sched).1.getLast? =
      some (finalResult server proc) ∧
    ∀ r ∈ (run_ssh_command env server user command ssh_options sched).1.dropLast,
      r.error = none ∧ r.success = true ∧
      ∃ l, (l ∈ proc.stdoutRead.lines ∨ l ∈ proc.stderrRead.lines) ∧
        r = provisional server l := by
  have hfst : (run_ssh_command env server user command ssh_options sched).1 =
      mergeBy sched (proc.stdoutRead.lines.map (provisional server))
        (proc.stderrRead.lines.map (provisional server)) ++ [finalResult server proc] := by
    rw [run_fst_eq env server user command ssh_options sched proc hspawn]
    simp [hout, herr]
  refine ⟨?_, ?_, ?_⟩
  · simp [run_ssh_command, hspawn, hout, herr]
  · rw [hfst]
    exact List.getLast?_concat _
  · rw [hfst, List.dropLast_concat]
    intro r hr
    have hr' := (mergeBy_perm sched _ _).mem_iff.mp hr
    rcases List.mem_append.mp hr' with h1 | h1
    · obtain ⟨l, hl, rfl⟩ := List.mem_map.mp h1
      exact ⟨rfl, rfl, l, Or.inl hl, rfl⟩
    · obtain ⟨l, hl, rfl⟩ := List.mem_map.mp h1
      exact ⟨rfl, rfl, l, Or.inr hl, rfl⟩

/-- Witness for C8: one stdout line and one stderr line, exit success. -/
theorem final_result_emitted_last_witness :
    (run_ssh_command ⟨.ok ⟨⟨[⟨"up 3 days", 1⟩], none⟩, ⟨[⟨"motd noise", 2⟩], none⟩, true, 7⟩⟩
        "host1" "root" "uptime" "" [true, false]).2 = none ∧
    (run_ssh_command ⟨.ok ⟨⟨[⟨"up 3 days", 1⟩], none⟩, ⟨[⟨"motd noise", 2⟩], none⟩, true, 7⟩⟩
        "host1" "root" "uptime" "" [true, false]).1.getLast? =
      some (finalResult "host1" ⟨⟨[⟨"up 3 days", 1⟩], none⟩, ⟨[⟨"motd noise", 2⟩], none⟩, true, 7⟩) :=
  ⟨(final_result_emitted_last ⟨.ok ⟨⟨[⟨"up 3 days", 1⟩], none⟩, ⟨[⟨"motd noise", 2⟩], none⟩, true, 7⟩⟩
      "host1" "root" "uptime" "" [true, false] _ rfl rfl rfl).1,
   (final_result_emitted_last ⟨.ok ⟨⟨[⟨"up 3 days", 1⟩], none⟩, ⟨[⟨"motd noise", 2⟩], none⟩, true, 7⟩⟩
      "host1" "root" "uptime" "" [true, false] _ rfl rfl rfl).2.1⟩

/-- C10: whenever the subprocess spawns, every line read from stderr is
emitted as a provisional result whose `output` is the line, `error = none`
and `success = true` — exactly like a stdout line (both threads send
`provisional`) — and no result the streaming executor ever emits carries
anything in its `error` field, so stderr text never appears there. -/
theorem stderr_lines_provisional_no_error (env : StreamEnv)
    (server user command ssh_options : String) (sched : List Bool)
    (proc : StreamProc) (hspawn : env.spawn = .ok proc) :
    (∀ r ∈ (run_ssh_command env server user command ssh_options sched).1,
      r.error = none) ∧
    ∀ l ∈ proc.stderrRead.lines,
      provisional server l ∈ (run_ssh_command env server user command ssh_options sched).1 ∧
      (provisional server l).output = l.line ∧
      (provisional server l).error = none ∧
      (provisional server l).success = true := by
  have hfst := run_fst_eq env server user command ssh_options sched proc hspawn
  constructor
  · intro r hr
    rw [hfst] at hr
    rcases List.mem_append.mp hr with h | h
    · rcases List.mem_append.mp ((mergeBy_perm sched _ _).mem_iff.mp h) with h1 | h1 <;>
        · obtain ⟨l, hl, rfl⟩ := List.mem_map.mp h1
          rfl
    · rcases hc : (decide (proc.stdoutRead.readFailure = none ∧
          proc.stderrRead.readFailure = none) : Bool) with _ | _
      · simp only [if_neg (of_decide_eq_false hc)] at h
        exact absurd h (List.not_mem_nil r)
      · simp only [if_pos (of_decide_eq_true hc)] at h
        rw [List.mem_singleton.mp h]
        rfl
  · intro l hl
    refine ⟨?_, rfl, rfl, rfl⟩
    rw [hfst]
    exact List.mem_append.mpr (Or.inl ((mergeBy_perm sched _ _).mem_iff.mpr
      (List.mem_append.mpr (Or.inr (List.mem_map.mpr ⟨l, hl, rfl⟩)))))

/-- Witness for C10: a run with one stderr line; the provisional result for
that line is among the emitted results and carries no error. -/
theorem stderr_lines_provisional_witness :
    (provisional "host2" ⟨"permission denied", 4⟩ ∈
      (run_ssh_command ⟨.ok ⟨⟨[], none⟩, ⟨[⟨"permission denied", 4⟩], none⟩, false, 9⟩⟩
        "host2" "root" "ls" "" []).1) ∧
    (provisional "host2" ⟨"permission denied", 4⟩).error = none :=
  ⟨((stderr_lines_provisional_no_error
      ⟨.ok ⟨⟨[], none⟩, ⟨[⟨"permission denied", 4⟩], none⟩, false, 9⟩⟩
      "host2" "root" "ls" "" [] _ rfl).2 ⟨"permission denied", 4⟩
      (List.mem_singleton.mpr rfl)).1,
   ((stderr_lines_provisional_no_error
      ⟨.ok ⟨⟨[], none⟩, ⟨[⟨"permission denied", 4⟩], none⟩, false, 9⟩⟩
      "host2" "root" "ls" "" [] _ rfl).2 ⟨"permission denied", 4⟩
      (List.mem_singleton.mpr rfl)).2.2.1⟩

end Ssh

end Russh

namespace Russh

namespace Main

/-- C1: for a non-empty server list (N) and non-empty command list (M), the
final report holds exactly N×M entries: the dispatcher spawns one worker
per (server, command) pair, each appends one result, the collected vector
is an arbitrary arrival-order permutation of those per-task results, and
sorting does not change the count. -/
theorem report_length_eq (cfg : Config) (commands : List String)
    (env : Nat → SpawnEnv) (collected : List ServerResult)
    (hserv : cfg.servers ≠ []) (hcmd : commands ≠ [])
    (hcol : List.Perm collected (dispatchResults env (buildTasks cfg commands))) :
    (finalReport collected).length = cfg.servers.length * commands.length := by
  calc (finalReport collected).length
      = collected.length := List.length_mergeSort collected
    _ = (dispatchResults env (buildTasks cfg commands)).length := hcol.length_eq
    _ = (buildTasks cfg commands).length := List.length_mapIdx
    _ = cfg.servers.length * commands.length := by
        show (cfg.servers.flatMap _).length = _
        rw [List.length_flatMap]
        have hmap : List.map (List.length ∘ fun server =>
            commands.map fun command =>
              ({ server := server
                 user := lookupDefault cfg.users server
                 ssh_options := lookupDefault cfg.ssh_options server
                 command := command } : Task)) cfg.servers =
            List.map (fun _ => commands.length) cfg.servers := by
          apply List.map_congr_left
          intro a ha
          simp
        rw [hmap]
        simp [List.map_const]

/-- Witness for C1: two servers, one command, spawn failures everywhere —
the report still has exactly 2×1 entries. -/
theorem report_length_eq_witness :
    ((["beta.example", "alpha.example"] : List String) ≠ []) ∧
    ((["uptime"] : List String) ≠ []) ∧
    (finalReport (dispatchResults (fun _ => ⟨.error "boom", 0⟩)
        (buildTasks ⟨["beta.example", "alpha.example"], [], []⟩ ["uptime"]))).length = 2 :=
  ⟨by simp, by simp,
   report_length_eq ⟨["beta.example", "alpha.example"], [], []⟩ ["uptime"]
     (fun _ => ⟨.error "boom", 0⟩) _ (by simp) (by simp) (List.Perm.refl _)⟩

end Main

end Russh

namespace Russh

namespace Main

/-- C2: the final report is sorted by `server` ascending — any entry at an
earlier position has a `server` less than or equal to any entry at a later
position — and the sort is stable: for every server name the subsequence of
results carrying it is unchanged from the pre-sort (arrival-order)
collection. -/
theorem report_sorted_by_server_and_stable (collected : List ServerResult) :
    (∀ i j : Fin (finalReport collected).length, i < j →
      ((finalReport collected).get i).server ≤ ((finalReport collected).get j).server) ∧
    (∀ s : String, (finalReport collected).filter (fun r => r.server == s) =
      collected.filter (fun r => r.server == s)) := by
  have htrans : ∀ a b c : ServerResult, decide (a.server ≤ b.server) = true →
      decide (b.server ≤ c.server) = true → decide (a.server ≤ c.server) = true := by
    intro a b c h1 h2
    simp only [decide_eq_true_eq] at h1 h2 ⊢
    exact le_trans h1 h2
  have htotal : ∀ a b : ServerResult,
      (decide (a.server ≤ b.server) || decide (b.server ≤ a.server)) = true := by
    intro a b
    simp only [Bool.or_eq_true, decide_eq_true_eq]
    exact le_total _ _
  constructor
  · have hpw : List.Pairwise (fun a b : ServerResult =>
        decide (a.server ≤ b.server) = true) (finalReport collected) :=
      List.sorted_mergeSort htrans htotal collected
    intro i j hij
    exact of_decide_eq_true (List.pairwise_iff_get.mp hpw i j hij)
  · intro s
    have hsub : List.Sublist (collected.filter fun r => r.server == s) collected :=
      List.filter_sublist collected
    have hpair : List.Pairwise (fun a b : ServerResult =>
        decide (a.server ≤ b.server) = true)
        (collected.filter fun r => r.server == s) := by
      apply List.pairwise_of_forall_mem_list
      intro a ha b hb
      have ha2 : a.server = s := by simpa using (List.mem_filter.mp ha).2
      have hb2 : b.server = s := by simpa using (List.mem_filter.mp hb).2
      simp [ha2, hb2]
    have hstab : List.Sublist (collected.filter fun r => r.server == s)
        (finalReport collected) :=
      List.sublist_mergeSort htrans htotal hpair hsub
    have h2 : List.Sublist
        ((collected.filter fun r => r.server == s).filter fun r => r.server == s)
        ((finalReport collected).filter fun r => r.server == s) :=
      List.Sublist.filter _ hstab
    have h3 : (collected.filter fun r => r.server == s).filter
        (fun r => r.server == s) = collected.filter fun r => r.server == s := by
      rw [List.filter_filter]
      simp [Bool.and_self]
    rw [h3] at h2
    have hperm : List.Perm ((finalReport collected).filter fun r => r.server == s)
        (collected.filter fun r => r.server == s) :=
      List.Perm.filter _ (List.mergeSort_perm collected _)
    exact (h2.eq_of_length hperm.length_eq.symm).symm

/-- Witness for C2: a two-element arrival order ["b-host", "a-host"]; the
report's first entry's server precedes the second's, and the "a-host"
subsequence is preserved. -/
theorem report_sorted_by_server_and_stable_witness :
    ((finalReport [⟨"b-host", "", none, 0⟩, ⟨"a-host", "", none, 1⟩]).get
        ⟨0, by simp [finalReport, List.length_mergeSort]⟩).server ≤
      ((finalReport [⟨"b-host", "", none, 0⟩, ⟨"a-host", "", none, 1⟩]).get
        ⟨1, by simp [finalReport, List.length_mergeSort]⟩).server ∧
    (finalReport [⟨"b-host", "", none, 0⟩, ⟨"a-host", "", none, 1⟩]).filter
        (fun r => r.server == "a-host") =
      [⟨"b-host", "", none, 0⟩, ⟨"a-host", "", none, 1⟩].filter
        (fun r => r.server == "a-host") :=
  ⟨(report_sorted_by_server_and_stable
      [⟨"b-host", "", none, 0⟩, ⟨"a-host", "", none, 1⟩]).1 _ _ (by decide),
   (report_sorted_by_server_and_stable
      [⟨"b-host", "", none, 0⟩, ⟨"a-host", "", none, 1⟩]).2 "a-host"⟩

/-- C7: task expansion never fails on a missing map entry — any task built
for a server absent from the `users` (resp. `ssh_options`) map carries the
empty string as its `user` (resp. `ssh_options`). -/
theorem task_expansion_defaults (cfg : Config) (commands : List String)
    (t : Task) (ht : t ∈ buildTasks cfg commands) :
    (cfg.users.lookup t.server = none → t.user = "") ∧
    (cfg.ssh_options.lookup t.server = none → t.ssh_options = "") := by
  obtain ⟨server, hs, hmem⟩ := List.mem_flatMap.mp ht
  obtain ⟨command, hc, rfl⟩ := List.mem_map.mp hmem
  refine ⟨fun h => ?_, fun h => ?_⟩
  · show (List.lookup server cfg.users).getD "" = ""
    rw [show List.lookup server cfg.users = none from h]
    rfl
  · show (List.lookup server cfg.ssh_options).getD "" = ""
    rw [show List.lookup server cfg.ssh_options = none from h]
    rfl

/-- Witness for C7: a config whose maps are empty still yields a task, with
empty-string user. -/
theorem task_expansion_defaults_witness :
    ((⟨"host1", "", "", "uptime"⟩ : Task) ∈
      buildTasks ⟨["host1"], [], []⟩ ["uptime"]) ∧
    (⟨"host1", "", "", "uptime"⟩ : Task).user = "" :=
  ⟨by simp [buildTasks, lookupDefault],
   (task_expansion_defaults ⟨["host1"], [], []⟩ ["uptime"] ⟨"host1", "", "", "uptime"⟩
      (by simp [buildTasks, lookupDefault])).1 rfl⟩

end Main

namespace Report

/-- C6: the finalized report's derived aggregates, computed by folding over
the (sorted) results' success flags, satisfy: `allSucceeded` is true iff
every result's `success` is true, and `anySucceeded` is true iff at least
one result's `success` is true. -/
theorem aggregates_iff (rs : List ExecutionResult) :
    ((finalize rs).allSucceeded = true ↔ ∀ r ∈ rs, r.success = true) ∧
    ((finalize rs).anySucceeded = true ↔ ∃ r ∈ rs, r.success = true) := by
  have hperm : List.Perm (rs.mergeSort fun a b => decide (a.server ≤ b.server)) rs :=
    List.mergeSort_perm rs _
  constructor
  · simp only [finalize, List.all_eq_true]
    exact ⟨fun h r hr => h r (hperm.mem_iff.mpr hr),
           fun h r hr => h r (hperm.mem_iff.mp hr)⟩
  · simp only [finalize, List.any_eq_true]
    exact ⟨fun ⟨r, hr, hsucc⟩ => ⟨r, hperm.mem_iff.mp hr, hsucc⟩,
           fun ⟨r, hr, hsucc⟩ => ⟨r, hperm.mem_iff.mpr hr, hsucc⟩⟩

end Report

end Russh
